import Mathlib

set_option maxRecDepth 100000

/-!
Verification development for the chesssnake repository.

The chess engine proper (`chesssnake/chesslib`: `Chess.Board`, `Chess.Move`,
the base `Game` class) is not present as source in this repository; only its
callers are (`game.py`, `chesssnake/postgres/Game.py`,
`chesssnake/postgres/PSql_Utils.py`).  Definitions below are translated from
those source files; the missing chesslib parts (the board codec, the move
notation grammar, and the board-level move application) are modelled from the
specification, each marked `Modelled from the spec:` in its doc comment.
-/

/-- Piece-type letter as used in the square tokens of the persisted board text
(`P N B R Q K`, per the starting-board literal in game.py line 61). -/
inductive PieceT
  | P | N | B | R | Q | K
deriving DecidableEq, Repr

/-- A piece: type plus color digit (0 = White, 1 = Black, as in the square
tokens `P0`, `R1`, ... of the persisted board text). -/
structure Piece where
  ptype : PieceT
  color : Nat
deriving DecidableEq, Repr

/-- A board square by zero-based file (column) and rank (row) coordinates,
as produced by `Chess.Board.get_coords`. -/
structure Square where
  col : Nat
  row : Nat
deriving DecidableEq, Repr

/-- A Python value that may be stored in `Game.draw`: `draw_offer` stores the
ints 0/1, while `Game.__init__` (game.py line 76) stores the raw text column
it reads, so both ints and strings occur dynamically. -/
inductive DrawV
  | num (n : Int)
  | str (s : String)
deriving DecidableEq, Repr

/-- The in-memory `Chess.Board` state used by game.py: the 8x8 piece grid and
moved flags (reassembled by `assemble_board`), the en-passant square
`two_moveP`, and the game `status` (0 in progress, 2 draw-by-agreement, as
set by `Game.draw_accept`, game.py line 156). -/
structure Board where
  grid : List (List (Option Piece))
  moved : List Bool
  two_moveP : Option Square
  status : Int
deriving DecidableEq, Repr

/-- The in-memory `Game` object of game.py: player ids, board, turn
(0 = White, 1 = Black) and the draw-offer field. -/
structure Game where
  wid : Int
  bid : Int
  board : Board
  turn : Int
  draw : Option DrawV
deriving DecidableEq, Repr

/-- The persisted per-game record, the columns written by `Game.move`
(game.py lines 105-108): Board, Turn, PawnMove, Moved, Draw. -/
structure DbRow where
  boardcol : String
  turncol : String
  pawncol : Option String
  movedcol : String
  drawcol : Option String
deriving DecidableEq, Repr

/-- Split a character list on a separator character; always returns at least
one (possibly empty) part.  Inverse of `List.intercalate [sep]` on parts that
avoid the separator. -/
def splitCh (sep : Char) : List Char → List (List Char)
  | [] => [[]]
  | c :: cs =>
    match splitCh sep cs with
    | [] => [[]]
    | t :: ts => if c = sep then [] :: t :: ts else (c :: t) :: ts

/-- Letter of a piece type in a square token. -/
def pieceLetter : PieceT → Char
  | .P => 'P'
  | .N => 'N'
  | .B => 'B'
  | .R => 'R'
  | .Q => 'Q'
  | .K => 'K'

/-- Piece type denoted by a square-token letter, if any. -/
def letterPiece (c : Char) : Option PieceT :=
  if c = 'P' then some .P
  else if c = 'N' then some .N
  else if c = 'B' then some .B
  else if c = 'R' then some .R
  else if c = 'Q' then some .Q
  else if c = 'K' then some .K
  else none

/-- Color digit of a square token. -/
def colorDigit (c : Nat) : Char := if c = 0 then '0' else '1'

/-- Color denoted by a square-token digit, if any. -/
def digitColor (c : Char) : Option Nat :=
  if c = '0' then some 0 else if c = '1' then some 1 else none

/-- Two-character square token: `--` for an empty square, otherwise the piece
letter followed by the color digit. -/
def sqTok : Option Piece → List Char
  | none => ['-', '-']
  | some p => [pieceLetter p.ptype, colorDigit p.color]

/-- Parse a two-character square token. -/
def parseSqTok : List Char → Option (Option Piece)
  | ['-', '-'] => some none
  | [a, b] =>
    match letterPiece a, digitColor b with
    | some pt, some c => some (some ⟨pt, c⟩)
    | _, _ => none
  | _ => none

/-- One rank-record: the eight square tokens separated by spaces. -/
def rankChars (r : List (Option Piece)) : List Char :=
  List.intercalate [' '] (r.map sqTok)

/-- Moved-flag character (`0` = has not moved, `1` = has moved). -/
def flagChar (b : Bool) : Char := if b then '1' else '0'

/-- Parse a moved-flag character. -/
def parseFlag (c : Char) : Option Bool :=
  if c = '0' then some false else if c = '1' then some true else none

/-- Modelled from the spec: `Chess.Board.disassemble_board` (chesslib, not
under src/).  Per section 4.4, it encodes the board as eight rank-records
separated by the rank delimiter `;`, each holding eight space-separated
two-character square tokens, together with the moved-flags string of `0`/`1`
characters. -/
def disassemble_board (b : Board) : String × String :=
  (⟨List.intercalate [';'] (b.grid.map rankChars)⟩, ⟨b.moved.map flagChar⟩)

/-- Modelled from the spec: `Chess.Board.assemble_board` (chesslib, not under
src/).  Parses the rank-record text and the moved-flags string back into the
piece grid and moved flags, rejecting malformed input. -/
def assemble_board (boardstr movedstr : String) :
    Option (List (List (Option Piece)) × List Bool) := do
  let grid ← (splitCh ';' boardstr.data).mapM (fun rc => (splitCh ' ' rc).mapM parseSqTok)
  let movedFlags ← movedstr.data.mapM parseFlag
  pure (grid, movedFlags)

/-- Modelled from the spec: `Chess.Board.get_coords` (chesslib, not under
src/).  Translates a two-character algebraic square text (`a1`..`h8`) into
zero-based file/rank coordinates. -/
def get_coords (s : String) : Option (Nat × Nat) :=
  match s.data with
  | [f, r] =>
    if 'a' ≤ f ∧ f ≤ 'h' ∧ '1' ≤ r ∧ r ≤ '8' then
      some (f.toNat - 'a'.toNat, r.toNat - '1'.toNat)
    else none
  | _ => none

/-- Modelled from the spec: the `c_notation` square text of chesslib (not
under src/), the inverse of `get_coords`. -/
def Square.coordText (sq : Square) : String :=
  ⟨[Char.ofNat ('a'.toNat + sq.col), Char.ofNat ('1'.toNat + sq.row)]⟩

/-- Decimal digit value. -/
def digitVal (c : Char) : Option Nat :=
  if '0' ≤ c ∧ c ≤ '9' then some (c.toNat - '0'.toNat) else none

/-- Python `int(...)` on a nonempty all-digit string (as applied to the Turn
column in game.py line 75). -/
def parseIntD (s : String) : Option Int :=
  match s.data with
  | [] => none
  | cs => (cs.mapM digitVal).map (fun ds => ((ds.foldl (fun a d => a * 10 + d) 0 : Nat) : Int))

/-- Text of a `DrawV` value as interpolated into SQL text by game.py. -/
def drawVText : DrawV → String
  | .num n => toString n
  | .str s => s

/-- The serialization of a game state into the persisted columns, as written
by the persistence calls of game.py: Board and Moved from
`disassemble_board` (line 98), PawnMove from `two_moveP` (line 99), Turn from
`turn`, Draw from `draw`. -/
def serializeGame (g : Game) : DbRow :=
  let dm := disassemble_board g.board
  { boardcol := dm.1
    turncol := toString g.turn
    pawncol := g.board.two_moveP.map Square.coordText
    movedcol := dm.2
    drawcol := g.draw.map drawVText }

/-- Embedding of the state reconstruction in `Game.__init__` (game.py lines
69-76).  The selected row has columns GroupId(0), WhiteId(1), BlackId(2),
Board(3), Turn(4), Pawnmove(5), Draw(6), Moved(7), WName(8), BName(9); the
code reads the board from `game[3]`/`game[7]`, `two_moveP` from `game[5]`,
the turn from `int(game[4])`, and assigns `self.draw = game[5]` — the
PawnMove column.  A fresh `Chess.Board` starts with status 0. -/
def deserializeGame (wid bid : Int) (r : DbRow) : Option Game := do
  let gm ← assemble_board r.boardcol r.movedcol
  let t ← parseIntD r.turncol
  let twoMove ← match r.pawncol with
    | none => pure (none : Option Square)
    | some pm => (get_coords pm).map (fun xy => some ⟨xy.1, xy.2⟩)
  pure ⟨wid, bid, ⟨gm.1, gm.2, twoMove, 0⟩, t, r.pawncol.map .str⟩

/-- Is `c` a file letter `a`..`h`? -/
def isFileCh (c : Char) : Bool := 'a' ≤ c && c ≤ 'h'

/-- Is `c` a rank digit `1`..`8`? -/
def isRankCh (c : Char) : Bool := '1' ≤ c && c ≤ '8'

/-- Is `c` a piece letter `N B R Q K`? -/
def isPieceCh (c : Char) : Bool :=
  c = 'N' || c = 'B' || c = 'R' || c = 'Q' || c = 'K'

/-- Is `c` a promotion piece letter `Q N B R`? -/
def isPromoCh (c : Char) : Bool :=
  c = 'Q' || c = 'N' || c = 'B' || c = 'R'

/-- A mandatory destination square (file letter then rank digit) followed by
an optional promotion suffix `=Q`/`=N`/`=B`/`=R`. -/
def destPromo : List Char → Bool
  | f :: r :: rest =>
    isFileCh f && isRankCh r &&
      (match rest with
       | [] => true
       | ['=', p] => isPromoCh p
       | _ => false)
  | _ => false

/-- Try to consume at most one character satisfying `p`, then continue with
`k` (both consuming and not consuming are tried, so the grammar match
backtracks). -/
def tryOpt (p : Char → Bool) (k : List Char → Bool) : List Char → Bool
  | [] => k []
  | c :: cs => (p c && k cs) || k (c :: cs)

/-- Modelled from the spec: `Chess.Move.is_valid_c_notation` (chesslib, not
under src/).  The section 4.1 grammar: an optional piece letter, an optional
disambiguating file and/or rank, an optional capture marker `x`, a mandatory
destination square, an optional promotion suffix; or the literal castling
tokens `O-O` / `O-O-O`.  A pure function of the text alone. -/
def isValidAlgebraic (s : String) : Bool :=
  s = "O-O" || s = "O-O-O" ||
    tryOpt isPieceCh
      (tryOpt isFileCh
        (tryOpt isRankCh
          (tryOpt (fun c => c = 'x') destPromo))) s.data

/-- Errors surfaced by `Game.move`: the notation error raised in game.py line
93, the terminal-state rejection, and the chess-rule failures of the
legality resolver (kept abstract, chesslib not being under src/). -/
inductive MoveErr
  | invalidNotationE
  | gameOverE
  | chessE (code : Nat)
deriving DecidableEq, Repr

/-- An abstract legality resolver standing for the rule logic of
`Chess.Board.move` on an in-progress board: it either produces the updated
board or fails with an abstract chess-rule error code. -/
def Resolver : Type := Board → String → Int → Except Nat Board

/-- Modelled from the spec: `Chess.Board.move` (chesslib, not under src/).
Per section 3 "a terminal GameState accepts no further moves" it rejects any
move when status is not 0 (InProgress); otherwise it defers to the legality
resolver.  Per section 7 (simulate-then-commit) a failure leaves the board
untouched, which the `Except` result encodes. -/
def boardMove (resolve : Resolver) (b : Board) (m : String) (t : Int) :
    Except MoveErr Board :=
  if b.status = 0 then
    match resolve b m t with
    | .error c => .error (.chessE c)
    | .ok b2 => .ok b2
  else .error .gameOverE

/-- Python inequality `self.turn != self.draw` (game.py line 100): an int is
unequal to `None` and to any string. -/
def pyTurnNeq (t : Int) : Option DrawV → Bool
  | some (.num n) => t != n
  | _ => true

/-- Outcome of one `Game.move` call: the (possibly updated) in-memory game,
the row written by the `UPDATE` statement when one was executed, and the
error raised, if any. -/
structure MoveOut where
  game : Game
  dbw : Option DbRow
  err : Option MoveErr
deriving DecidableEq, Repr

/-- Embedding of `Game.move` (game.py lines 89-108): raise
`InvalidNotationError` on text not matching the move grammar; otherwise make
the move on the board; on success compute the columns (the Draw column per
the line-100 conditional, against the pre-flip turn), flip the turn, and
write the row.  The in-memory `draw` field is never assigned. -/
def Game.move (resolve : Resolver) (g : Game) (m : String) : MoveOut :=
  if isValidAlgebraic m then
    match boardMove resolve g.board m g.turn with
    | .error e => ⟨g, none, some e⟩
    | .ok b2 =>
      let dm := disassemble_board b2
      let pawncol := b2.two_moveP.map Square.coordText
      let drawcol : Option String :=
        if (!g.draw.isNone && pyTurnNeq g.turn g.draw) || g.draw.isNone then none
        else g.draw.map drawVText
      let g2 : Game := { g with board := b2, turn := 1 - g.turn }
      ⟨g2, some ⟨dm.1, toString g2.turn, pawncol, dm.2, drawcol⟩, none⟩
  else ⟨g, none, some .invalidNotationE⟩

/-- Errors raised by the draw protocol of game.py. -/
inductive DrawErr
  | alreadyOfferedE
  | wrongTurnE
  | notOfferedE
deriving DecidableEq, Repr

/-- Embedding of `Game.is_players_turn` (game.py lines 79-84). -/
def is_players_turn (g : Game) (p : Int) : Bool :=
  if (g.turn = 0 ∧ p = g.wid) ∨ (g.turn = 1 ∧ p = g.bid) then true else false

/-- Embedding of `Game.draw_accept` (game.py lines 151-157): raise
`DrawNotOfferedError` if the offer is the caller's own or absent; otherwise
set `board.status = 2` (the database deletion of `end_check` is not part of
the in-memory state). -/
def drawAccept (g : Game) (p : Int) : Game × Option DrawErr :=
  if (g.draw = some (.num 0) ∧ p = g.wid) ∨ (g.draw = some (.num 1) ∧ p = g.bid)
      ∨ g.draw = none then
    (g, some .notOfferedE)
  else ({ g with board := { g.board with status := 2 } }, none)

/-- Embedding of `Game.draw_offer` (game.py lines 127-147).  The `elif` that
calls `draw_accept` does not return, so on a normal return from
`draw_accept` control continues to the tail assignment
`self.draw = 0 if player_id == self.wid else 1`. -/
def drawOffer (g : Game) (p : Int) : Game × Option DrawErr :=
  if (g.draw = some (.num 0) ∧ p = g.wid) ∨ (g.draw = some (.num 1) ∧ p = g.bid) then
    (g, some .alreadyOfferedE)
  else
    let step : Game × Option DrawErr :=
      if (g.draw = some (.num 1) ∧ p = g.wid) ∨ (g.draw = some (.num 0) ∧ p = g.bid) then
        drawAccept g p
      else if is_players_turn g p then (g, none)
      else (g, some .wrongTurnE)
    match step with
    | (g1, none) => ({ g1 with draw := some (.num (if p = g.wid then 0 else 1)) }, none)
    | (g1, some e) => (g1, some e)

/-- The standard starting grid, as in the board literal inserted by
`Game.__init__` (game.py line 61), top rank-record first. -/
def startGrid : List (List (Option Piece)) :=
  [[some ⟨.R,1⟩, some ⟨.N,1⟩, some ⟨.B,1⟩, some ⟨.Q,1⟩, some ⟨.K,1⟩, some ⟨.B,1⟩, some ⟨.N,1⟩, some ⟨.R,1⟩],
   List.replicate 8 (some ⟨.P,1⟩),
   List.replicate 8 none, List.replicate 8 none, List.replicate 8 none, List.replicate 8 none,
   List.replicate 8 (some ⟨.P,0⟩),
   [some ⟨.R,0⟩, some ⟨.N,0⟩, some ⟨.B,0⟩, some ⟨.Q,0⟩, some ⟨.K,0⟩, some ⟨.B,0⟩, some ⟨.N,0⟩, some ⟨.R,0⟩]]

/-- The starting board: nothing moved, no en-passant square, in progress. -/
def b0 : Board := ⟨startGrid, List.replicate 6 false, none, 0⟩

/-- A game at the starting position in which White (color 0) holds the open
draw offer. -/
def g0 : Game := ⟨0, 1, b0, 0, some (.num 0)⟩

/-- A resolver that accepts every move and leaves the board as it is (used to
instantiate the abstract chess-rule logic at concrete inputs). -/
def resolveOk : Resolver := fun b _ _ => .ok b

/-- A terminal game (status 2, draw by agreement). -/
def gT : Game := ⟨0, 1, ⟨startGrid, List.replicate 6 false, none, 2⟩, 0, none⟩

/-- Claim C1: for every reachable GameState, deserializing the serialization
is field-for-field equal to the original.  This fails on the draw field:
`Game.__init__` (game.py line 76) assigns `self.draw = game[5]`, the PawnMove
column, instead of `game[6]`, the Draw column, so a stored draw offer is lost
on reload.  Evaluated here at a starting-position state in which White holds
the open draw offer. -/
theorem C1_roundtrip_draw_lost :
    deserializeGame 0 1 (serializeGame g0) = some { g0 with draw := none } ∧
    ({ g0 with draw := none } : Game) ≠ g0 := by
  constructor
  · rfl
  · decide

/-- Claim C2: across every `Game.move` call, under any legality resolver, the
turn field is `1 - turn` after a successful call, and the whole in-memory
game is unchanged after a failed call. -/
theorem C2_turn_alternation (resolve : Resolver) (g : Game) (m : String) :
    ((Game.move resolve g m).err = none →
       (Game.move resolve g m).game.turn = 1 - g.turn) ∧
    ((Game.move resolve g m).err ≠ none → (Game.move resolve g m).game = g) := by
  unfold Game.move boardMove
  by_cases hv : isValidAlgebraic m
  · simp only [hv, if_true]
    by_cases hs : g.board.status = 0
    · simp only [hs, if_true]
      cases hr : resolve g.board m g.turn with
      | error c => simp
      | ok b2 => simp
    · simp [hs]
  · simp [hv]

/-- Witness for C2 at concrete inputs: a successful move from the starting
position flips the turn, and a call with malformed text leaves the game
unchanged. -/
theorem C2_turn_alternation_witness :
    (Game.move resolveOk g0 "e4").game.turn = 1 - g0.turn ∧
    (Game.move resolveOk g0 "zz").game = g0 :=
  ⟨(C2_turn_alternation resolveOk g0 "e4").1 (by decide),
   (C2_turn_alternation resolveOk g0 "zz").2 (by decide)⟩

/-- Claim C3: on a game whose status is not InProgress (0), every `Game.move`
call fails, mutates nothing, and writes nothing to the database, under any
legality resolver. -/
theorem C3_terminal_rejects (resolve : Resolver) (g : Game) (m : String)
    (h : g.board.status ≠ 0) :
    (Game.move resolve g m).game = g ∧ (Game.move resolve g m).err ≠ none ∧
    (Game.move resolve g m).dbw = none := by
  unfold Game.move boardMove
  by_cases hv : isValidAlgebraic m
  · simp only [hv, if_true]
    simp [h]
  · simp [hv]

/-- Witness for C3 at a terminal game. -/
theorem C3_terminal_rejects_witness :
    (Game.move resolveOk gT "e4").game = gT ∧ (Game.move resolveOk gT "e4").err ≠ none ∧
    (Game.move resolveOk gT "e4").dbw = none :=
  C3_terminal_rejects resolveOk gT "e4" (by decide)

/-- Claim C8: on any text not matching the move grammar, `Game.move` raises
the notation error and returns with no state change and no database write —
for every board and every resolver, so the outcome depends on the text
alone. -/
theorem C8_invalid_text (resolve : Resolver) (g : Game) (m : String)
    (h : isValidAlgebraic m = false) :
    Game.move resolve g m = ⟨g, none, some .invalidNotationE⟩ := by
  unfold Game.move
  simp [h]

/-- Witness for C8 at a malformed move text. -/
theorem C8_invalid_text_witness :
    Game.move resolveOk g0 "hello" = ⟨g0, none, some MoveErr.invalidNotationE⟩ :=
  C8_invalid_text resolveOk g0 "hello" (by decide)

/-- A game at the starting position, White to move, in which Black (color 1)
holds the open draw offer. -/
def g1ex : Game := ⟨10, 20, b0, 0, some (.num 1)⟩

/-- Counterexample for claim C4: with Black holding the open offer, White
calling `draw_offer` does end the game (status 2, DrawByAgreement), but the
draw field is then overwritten with an offer recorded as coming from White
(the tail assignment of game.py line 142 runs after the `draw_accept` call),
so the effect is not exactly that of `draw_accept`, whose result keeps the
original offer. -/
theorem C4_counterexample :
    (drawOffer g1ex 10).2 = none ∧
    (drawOffer g1ex 10).1.board.status = 2 ∧
    (drawOffer g1ex 10).1.draw = some (.num 0) ∧
    (drawAccept g1ex 10).1.draw = some (.num 1) ∧
    g1ex.draw = some (.num 1) := by
  refine ⟨by decide, by decide, by decide, by decide, by decide⟩

/-- Claim C4 as amended: when the open offer belongs to the opponent of `p`,
`draw_offer(p)` accepts the draw — the game ends with status 2
(DrawByAgreement) and no error — but additionally overwrites the draw-offer
field with an offer recorded as coming from `p`. -/
theorem C4_offer_accepts_and_overwrites (g : Game) (p : Int)
    (hw : g.wid ≠ g.bid)
    (hopp : (g.draw = some (.num 1) ∧ p = g.wid) ∨ (g.draw = some (.num 0) ∧ p = g.bid)) :
    drawOffer g p =
      ({ g with
          board := { g.board with status := 2 },
          draw := some (.num (if p = g.wid then 0 else 1)) }, none) := by
  unfold drawOffer drawAccept
  rcases hopp with ⟨hd, hp⟩ | ⟨hd, hp⟩
  · subst hp
    simp [hd, hw]
  · subst hp
    have hbw : g.bid ≠ g.wid := fun h => hw h.symm
    simp [hd, hbw]

/-- Witness for the amended C4 at a concrete game: Black holds the offer and
White calls `draw_offer`. -/
theorem C4_offer_accepts_and_overwrites_witness :
    drawOffer g1ex 10 =
      ({ g1ex with
          board := { g1ex.board with status := 2 },
          draw := some (.num (if (10 : Int) = g1ex.wid then 0 else 1)) }, none) :=
  C4_offer_accepts_and_overwrites g1ex 10 (by decide) (Or.inl ⟨by decide, by decide⟩)

/-- Claim C5: `draw_offer(p)` fails with `DrawAlreadyOfferedError` when `p`
already holds the open offer, and with `DrawWrongTurnError` when no offer is
open and it is not `p`'s turn; in both cases the game is returned
unchanged. -/
theorem C5_offer_error_cases (g : Game) (p : Int) (hp : p = g.wid ∨ p = g.bid) :
    (g.draw = some (.num (if p = g.wid then 0 else 1)) →
       drawOffer g p = (g, some .alreadyOfferedE)) ∧
    (g.draw = none → is_players_turn g p = false →
       drawOffer g p = (g, some .wrongTurnE)) := by
  constructor
  · intro hd
    by_cases hpw : p = g.wid
    · rw [if_pos hpw] at hd
      unfold drawOffer
      simp [hd, hpw]
    · have hpb : p = g.bid := hp.resolve_left hpw
      rw [if_neg hpw] at hd
      unfold drawOffer
      simp [hd, hpb]
  · intro hd ht
    unfold drawOffer
    simp [hd, ht]

/-- A game in which White (id 10) holds the open draw offer. -/
def gA : Game := ⟨10, 20, b0, 0, some (.num 0)⟩

/-- A game with no open offer, Black to move. -/
def gB : Game := ⟨10, 20, b0, 1, none⟩

/-- Witness for C5: White offering again fails with the already-offered
error; White offering out of turn with no open offer fails with the
wrong-turn error. -/
theorem C5_offer_error_cases_witness :
    drawOffer gA 10 = (gA, some DrawErr.alreadyOfferedE) ∧
    drawOffer gB 10 = (gB, some DrawErr.wrongTurnE) :=
  ⟨(C5_offer_error_cases gA 10 (Or.inl (by decide))).1 (by decide),
   (C5_offer_error_cases gB 10 (Or.inl (by decide))).2 (by decide) (by decide)⟩

/-- Claim C6: `draw_accept(p)` fails with `DrawNotOfferedError` when no offer
is open or the open offer is `p`'s own, leaving the game unchanged;
otherwise it sets the board status to 2 (DrawByAgreement, terminal). -/
theorem C6_accept_protocol (g : Game) (p : Int) (hw : g.wid ≠ g.bid)
    (hp : p = g.wid ∨ p = g.bid) :
    ((g.draw = none ∨ g.draw = some (.num (if p = g.wid then 0 else 1))) →
       drawAccept g p = (g, some .notOfferedE)) ∧
    (g.draw = some (.num (if p = g.wid then 1 else 0)) →
       drawAccept g p = ({ g with board := { g.board with status := 2 } }, none)) := by
  constructor
  · intro hd
    unfold drawAccept
    rcases hd with hd | hd
    · simp [hd]
    · by_cases hpw : p = g.wid
      · rw [if_pos hpw] at hd
        simp [hd, hpw]
      · have hpb : p = g.bid := hp.resolve_left hpw
        rw [if_neg hpw] at hd
        simp [hd, hpb]
  · intro hd
    unfold drawAccept
    by_cases hpw : p = g.wid
    · rw [if_pos hpw] at hd
      have hpb : p ≠ g.bid := fun h => hw (hpw.symm.trans h)
      simp [hd, hpw, hpb, hw]
    · have hpb : p = g.bid := hp.resolve_left hpw
      rw [if_neg hpw] at hd
      simp [hd, hpb, hpw, hw.symm]

/-- A game with no open draw offer, White to move. -/
def gC : Game := ⟨10, 20, b0, 0, none⟩

/-- Witness for C6: accepting with no open offer fails; White accepting
Black's open offer ends the game with status 2. -/
theorem C6_accept_protocol_witness :
    drawAccept gC 20 = (gC, some DrawErr.notOfferedE) ∧
    drawAccept g1ex 10 = ({ g1ex with board := { g1ex.board with status := 2 } }, none) :=
  ⟨(C6_accept_protocol gC 20 (by decide) (Or.inr (by decide))).1 (Or.inl (by decide)),
   (C6_accept_protocol g1ex 10 (by decide) (Or.inl (by decide))).2 (by decide)⟩

/-- The Draw column value computed by game.py line 100 equals: the stored
offer text when the pending offer is the pre-flip mover's own, and NULL
otherwise. -/
theorem drawColValue (t : Int) (d : Option DrawV) :
    (if (!d.isNone && pyTurnNeq t d) || d.isNone then (none : Option String)
     else d.map drawVText) =
      (if d = some (.num t) then some (toString t) else none) := by
  cases d with
  | none => simp
  | some v =>
    cases v with
    | num n =>
      by_cases hn : t = n
      · subst hn
        simp [pyTurnNeq, drawVText]
      · have hne : DrawV.num n ≠ DrawV.num t := by
          intro hc
          exact hn (DrawV.num.inj hc).symm
        simp [pyTurnNeq, bne_iff_ne, hn, hne]
    | str s => simp [pyTurnNeq]

/-- A game at the starting position in which the player to move (White)
holds the open draw offer. -/
def g2ex : Game := ⟨10, 20, b0, 0, some (.num 0)⟩

/-- Counterexample for claim C7: a successful move from a state where the
mover holds the open offer leaves the in-memory draw field set (not None)
and persists the offer text `0` in the Draw column (not NULL), so the offer
is cleared in neither place. -/
theorem C7_counterexample :
    (Game.move resolveOk g2ex "e4").err = none ∧
    (Game.move resolveOk g2ex "e4").game.draw = some (.num 0) ∧
    (Game.move resolveOk g2ex "e4").dbw.map DbRow.drawcol = some (some "0") := by
  refine ⟨by decide, by decide, by decide⟩

/-- Claim C7 as amended: a successful `Game.move` never assigns the
in-memory draw field (it is unchanged, not cleared), and the persisted Draw
column is set to NULL unless the pending offer belongs to the player who
just moved (`draw == turn` before the flip), in which case the offer is
persisted unchanged. -/
theorem C7_draw_on_success (resolve : Resolver) (g : Game) (m : String)
    (h : (Game.move resolve g m).err = none) :
    (Game.move resolve g m).game.draw = g.draw ∧
    (Game.move resolve g m).dbw.map DbRow.drawcol =
      some (if g.draw = some (.num g.turn) then some (toString g.turn) else none) := by
  unfold Game.move boardMove at h ⊢
  by_cases hv : isValidAlgebraic m
  · simp only [hv, if_true] at h ⊢
    by_cases hs : g.board.status = 0
    · simp only [hs, if_true] at h ⊢
      cases hr : resolve g.board m g.turn with
      | error c => simp [hr] at h
      | ok b2 =>
        simp only [hr]
        refine ⟨trivial, ?_⟩
        show some (if (!g.draw.isNone && pyTurnNeq g.turn g.draw) || g.draw.isNone then
            (none : Option String) else g.draw.map drawVText) = _
        rw [drawColValue g.turn g.draw]
    · simp [hs] at h
  · simp [hv] at h

/-- Witness for the amended C7 at a concrete successful move. -/
theorem C7_draw_on_success_witness :
    (Game.move resolveOk g2ex "e4").game.draw = g2ex.draw ∧
    (Game.move resolveOk g2ex "e4").dbw.map DbRow.drawcol =
      some (if g2ex.draw = some (.num g2ex.turn) then some (toString g2ex.turn) else none) :=
  C7_draw_on_success resolveOk g2ex "e4" (by decide)

/-- Lower end of the PostgreSQL BIGINT range (postgres/Game.py line 108). -/
def BIGINT_MIN : Int := -9223372036854775808

/-- Upper end of the PostgreSQL BIGINT range (postgres/Game.py line 109). -/
def BIGINT_MAX : Int := 9223372036854775807

/-- A database access issued during postgres `Game.__init__`. -/
inductive DbCall
  | gameInitQuery (group_id white_id black_id : Int)
deriving DecidableEq, Repr

/-- Errors of the postgres layer (chesssnake/postgres/GameError.py). -/
inductive SqlErr
  | sqlIdErrorE
  | sqlAuthErrorE
deriving DecidableEq, Repr

/-- Embedding of the guard phase of the postgres `Game.__init__`
(chesssnake/postgres/Game.py lines 103-120) for integer ids: ids outside the
BIGINT range raise `SQLIdError`; only afterwards, and only when `sql` or
`auto_sql` is set, is the database touched via `sql_game_init`.  The result
lists the database calls issued. -/
def pgGameInit (white_id black_id group_id : Int) (sql auto_sql : Bool) :
    Except SqlErr (List DbCall) :=
  if BIGINT_MIN ≤ white_id ∧ white_id ≤ BIGINT_MAX ∧
      BIGINT_MIN ≤ black_id ∧ black_id ≤ BIGINT_MAX ∧
      BIGINT_MIN ≤ group_id ∧ group_id ≤ BIGINT_MAX then
    .ok (if sql || auto_sql then [.gameInitQuery group_id white_id black_id] else [])
  else .error .sqlIdErrorE

/-- Claim C9: whenever any of the three ids lies outside the signed 64-bit
BIGINT range, the postgres `Game.__init__` raises `SQLIdError`, and no
database call is issued (the error result carries no `DbCall`). -/
theorem C9_bigint_guard (w b gr : Int) (sql auto_sql : Bool)
    (h : w < BIGINT_MIN ∨ BIGINT_MAX < w ∨ b < BIGINT_MIN ∨ BIGINT_MAX < b ∨
      gr < BIGINT_MIN ∨ BIGINT_MAX < gr) :
    pgGameInit w b gr sql auto_sql = .error .sqlIdErrorE := by
  have hn : ¬(BIGINT_MIN ≤ w ∧ w ≤ BIGINT_MAX ∧ BIGINT_MIN ≤ b ∧ b ≤ BIGINT_MAX ∧
      BIGINT_MIN ≤ gr ∧ gr ≤ BIGINT_MAX) := by
    unfold BIGINT_MIN BIGINT_MAX at h ⊢
    omega
  unfold pgGameInit
  rw [if_neg hn]

/-- Witness for C9: a white id one above the BIGINT maximum is rejected. -/
theorem C9_bigint_guard_witness :
    pgGameInit 9223372036854775808 0 0 true false = .error SqlErr.sqlIdErrorE :=
  C9_bigint_guard 9223372036854775808 0 0 true false (by decide)

/-- The raw environment lookups consulted by `load_env_psql_creds`
(chesssnake/postgres/PSql_Utils.py lines 13-25). -/
structure EnvVars where
  chessdb_conn_str : Option String
  chessdb_name : Option String
  chessdb_user : Option String
  chessdb_pass : Option String
  chessdb_host : Option String
  chessdb_port : Option String
deriving DecidableEq, Repr

/-- The credential values after environment loading or dictionary merging:
each Python dict value is `None` or a string. -/
structure CredVals where
  conn_str : Option String
  name : Option String
  user : Option String
  password : Option String
  host : Option String
  port : Option String
deriving DecidableEq, Repr

/-- A programmatic `sql_creds` dictionary: each key is absent (`none`) or
present with a `None`-or-string value (`some v`), matching Python dict-merge
semantics where a present key overrides even with value `None`. -/
structure SqlCredsDict where
  conn_str : Option (Option String)
  name : Option (Option String)
  user : Option (Option String)
  password : Option (Option String)
  host : Option (Option String)
  port : Option (Option String)
deriving DecidableEq, Repr

/-- The empty `sql_creds` dictionary (`sql_creds or {}`). -/
def emptyCredsDict : SqlCredsDict := ⟨none, none, none, none, none, none⟩

/-- Embedding of `load_env_psql_creds` (PSql_Utils.py lines 13-25): the five
credential variables, with `host` and `port` defaulting to `localhost` and
`5432`. -/
def load_env_psql_creds (e : EnvVars) : CredVals :=
  { conn_str := e.chessdb_conn_str
    name := e.chessdb_name
    user := e.chessdb_user
    password := e.chessdb_pass
    host := some (e.chessdb_host.getD "localhost")
    port := some (e.chessdb_port.getD "5432") }

/-- The Python dict merge of PSql_Utils.py line 38: a key present in the
programmatic dictionary overrides the environment value. -/
def mergeCreds (env : CredVals) (d : SqlCredsDict) : CredVals :=
  { conn_str := d.conn_str.getD env.conn_str
    name := d.name.getD env.name
    user := d.user.getD env.user
    password := d.password.getD env.password
    host := d.host.getD env.host
    port := d.port.getD env.port }

/-- Python truthiness of a dict value that is `None` or a string: `None` and
the empty string are falsy. -/
def truthy : Option String → Bool
  | none => false
  | some s => s ≠ ""

/-- Text of a dict value under Python string formatting (`None` renders as
the four-character word). -/
def pyFmt : Option String → String
  | none => "None"
  | some s => s

/-- The single-quote character, written by code point to keep it out of
string literals. -/
def sQuote : String := ⟨[Char.ofNat 39]⟩

/-- The dsn text built by PSql_Utils.py line 44 from the merged
credentials. -/
def dsnOf (m : CredVals) : String :=
  "dbname=" ++ sQuote ++ pyFmt m.name ++ sQuote ++ " user=" ++ sQuote ++ pyFmt m.user ++ sQuote ++
    " password=" ++ sQuote ++ pyFmt m.password ++ sQuote ++ " host=" ++ sQuote ++ pyFmt m.host ++ sQuote ++
    " port=" ++ sQuote ++ pyFmt m.port ++ sQuote

/-- Embedding of `load_psql_conn_str` (PSql_Utils.py lines 28-46): merge the
programmatic credentials over the environment-derived ones, return the
merged `conn_str` when truthy, otherwise the dsn text when `name`, `user`
and `password` are all truthy, otherwise raise `SQLAuthError`. -/
def load_psql_conn_str (e : EnvVars) (sql_creds : Option SqlCredsDict) :
    Except SqlErr String :=
  let env_sql_creds := load_env_psql_creds e
  let d := sql_creds.getD emptyCredsDict
  let m := mergeCreds env_sql_creds d
  if truthy m.conn_str then .ok (pyFmt m.conn_str)
  else if truthy m.name && truthy m.user && truthy m.password then .ok (dsnOf m)
  else .error .sqlAuthErrorE

/-- Claim C10: `load_psql_conn_str` merges programmatic over
environment-derived credentials (programmatic priority, via `mergeCreds`),
returns the merged `conn_str` when one is present and non-empty, otherwise
the dsn built from name/user/password/host/port when name, user and
password are all non-empty, and otherwise raises `SQLAuthError`. -/
theorem C10_conn_str_resolution (e : EnvVars) (sql_creds : Option SqlCredsDict) :
    (∀ s : String, (mergeCreds (load_env_psql_creds e) (sql_creds.getD emptyCredsDict)).conn_str = some s →
       s ≠ "" → load_psql_conn_str e sql_creds = .ok s) ∧
    (truthy (mergeCreds (load_env_psql_creds e) (sql_creds.getD emptyCredsDict)).conn_str = false →
     truthy (mergeCreds (load_env_psql_creds e) (sql_creds.getD emptyCredsDict)).name = true →
     truthy (mergeCreds (load_env_psql_creds e) (sql_creds.getD emptyCredsDict)).user = true →
     truthy (mergeCreds (load_env_psql_creds e) (sql_creds.getD emptyCredsDict)).password = true →
       load_psql_conn_str e sql_creds =
         .ok (dsnOf (mergeCreds (load_env_psql_creds e) (sql_creds.getD emptyCredsDict)))) ∧
    (truthy (mergeCreds (load_env_psql_creds e) (sql_creds.getD emptyCredsDict)).conn_str = false →
     (truthy (mergeCreds (load_env_psql_creds e) (sql_creds.getD emptyCredsDict)).name = false ∨
      truthy (mergeCreds (load_env_psql_creds e) (sql_creds.getD emptyCredsDict)).user = false ∨
      truthy (mergeCreds (load_env_psql_creds e) (sql_creds.getD emptyCredsDict)).password = false) →
       load_psql_conn_str e sql_creds = .error .sqlAuthErrorE) := by
  refine ⟨?_, ?_, ?_⟩
  · intro s hs hne
    unfold load_psql_conn_str
    have ht : truthy (mergeCreds (load_env_psql_creds e) (sql_creds.getD emptyCredsDict)).conn_str = true := by
      rw [hs]
      simpa [truthy] using hne
    simp only [ht, if_true]
    rw [hs]
    rfl
  · intro hc hn hu hp
    unfold load_psql_conn_str
    simp only [hc, hn, hu, hp]
    rfl
  · intro hc hf
    unfold load_psql_conn_str
    simp only [hc]
    rcases hf with hf | hf | hf
    all_goals simp [hf]

/-- A concrete environment carrying only a connection string. -/
def envConn : EnvVars := ⟨some "CS", none, none, none, none, none⟩

/-- A concrete environment carrying name, user and password. -/
def envNup : EnvVars := ⟨none, some "db", some "u", some "pw", none, none⟩

/-- A concrete empty environment. -/
def envNone : EnvVars := ⟨none, none, none, none, none, none⟩

/-- Witness for C10 at concrete inputs, one per branch: a truthy merged
conn_str is returned as-is; name/user/password produce the dsn text; and
with nothing set the call fails with `SQLAuthError`. -/
theorem C10_conn_str_resolution_witness :
    load_psql_conn_str envConn none = .ok "CS" ∧
    load_psql_conn_str envNup none =
      .ok (dsnOf (mergeCreds (load_env_psql_creds envNup) ((none : Option SqlCredsDict).getD emptyCredsDict))) ∧
    load_psql_conn_str envNone none = .error SqlErr.sqlAuthErrorE :=
  ⟨(C10_conn_str_resolution envConn none).1 "CS" (by decide) (by decide),
   (C10_conn_str_resolution envNup none).2.1 (by decide) (by decide) (by decide) (by decide),
   (C10_conn_str_resolution envNone none).2.2 (by decide) (Or.inl (by decide))⟩
